import Mathlib

/-!
WordPress-to-Markdown converter: verification of the streaming
extraction and content-quality filtering pipeline.

Shallow embedding of the repository's core:

* `src/server/utils/contentFiltering.ts` — the Content Quality Analyzer
  (`countWords`, `calculateTextToHtmlRatio`, `hasImages`, `isEmbedHeavy`),
  the System-Page Classifier (`isSystemGeneratedPage`), the quality
  aggregator (`analyzeContentQuality`) and the Filtering Decision Engine
  (`shouldProcessPost`).
* `src/server/routes.ts` — the SAX event handlers (`onopentag`, `ontext`,
  `oncdata`, `onclosetag`) that accumulate a post record from the token
  stream, and the progress endpoint's percentage computation.

Modelling conventions:
* JavaScript strings are modelled as `List Char` (`Str`); `str s` injects a
  Lean string literal.
* JavaScript numbers are modelled as `ℕ` where the source only ever holds
  counts and as `ℚ` where the source divides (the text-to-markup ratio);
  IEEE-754 rounding of doubles is not modelled.
* The dynamic property bag `currentPost` of `routes.ts` is modelled as an
  association list from tag names to JavaScript values (string or array),
  with `metadata` (categories / tags / custom fields) kept as separate
  record fields, as no XML tag named `metadata` occurs in the format.
-/

set_option maxHeartbeats 1000000

namespace WpMd

/-- JavaScript strings, modelled as lists of characters. -/
abbrev Str : Type := List Char

/-- Inject a Lean string literal into the model. -/
def str (s : String) : Str := s.data

/-- Substring containment: `needle` occurs as a contiguous substring: JS `String.prototype.includes`. -/
def containsSub (hay needle : Str) : Bool :=
  match hay with
  | [] => needle = ([] : Str)
  | _ :: t => needle.isPrefixOf hay || containsSub t needle

/-- JS `String.prototype.toLowerCase`, restricted to per-character lowering. -/
def lowerStr (s : Str) : Str := s.map Char.toLower

/-- ASCII whitespace, the characters JS `trim` / `\s` handle in this data. -/
def isWs (c : Char) : Bool := c = ' ' || c = '\t' || c = '\n' || c = '\r' || c = '\x0c' || c = '\x0b'

/-- JS `String.prototype.trim`: drop whitespace from both ends. -/
def trimStr (s : Str) : Str :=
  ((s.dropWhile isWs).reverse.dropWhile isWs).reverse

/-- JS digit class `\d`. -/
def isDigit (c : Char) : Bool := '0' ≤ c && c ≤ '9'

/-- JS word class `\w` = `[A-Za-z0-9_]`. -/
def isWordChar (c : Char) : Bool :=
  ('a' ≤ c && c ≤ 'z') || ('A' ≤ c && c ≤ 'Z') || isDigit c || c = '_'

/-- One `>`-terminated chunk of the input, rendered for the global
replacement of `<[^>]*>` by `rep`: within such a chunk the regex matches
from the chunk's first `<` (if any) through the terminating `>` — `[^>]*`
cannot cross a `>`, and matching is leftmost — so a chunk containing a `<`
contributes its text before the first `<` followed by `rep`, while a chunk
with no `<` is literal, its terminating `>` included. -/
def gtChunkOut (rep chunk : Str) : Str :=
  if chunk.contains '<' then chunk.takeWhile (fun c => !(c = '<')) ++ rep
  else chunk ++ ['>']

/-- Scanner for the replacement of `<[^>]*>` by `rep`: `chunk` holds the
characters seen since the last `>`. The text after the final `>` contains
no complete `<…>` group, hence stays literal. -/
def replTagsAux (rep : Str) (chunk : Str) : Str → Str
  | [] => chunk
  | c :: t =>
    if c = '>' then gtChunkOut rep chunk ++ replTagsAux rep [] t
    else replTagsAux rep (chunk ++ [c]) t

/-- Global replacement of the regex `<[^>]*>` by `rep` (the source uses
`' '` in `countWords` and `''` in `calculateTextToHtmlRatio`). -/
def replTags (rep s : Str) : Str := replTagsAux rep [] s

/-- Count of non-empty whitespace-separated tokens (JS
`.trim().split(/\s+/)` followed by filtering non-empty words); `inTok`
records whether the scanner is inside a token. -/
def tokenCountAux (inTok : Bool) : Str → ℕ
  | [] => 0
  | c :: t =>
    if isWs c then tokenCountAux false t
    else if inTok then tokenCountAux true t
    else 1 + tokenCountAux true t

/-- Token count of a string, starting outside any token. -/
def tokenCount (s : Str) : ℕ := tokenCountAux false s

/-- Embedding of `countWords` (contentFiltering.ts):
```
const cleanText = text.replace(/<[^>]*>/g, ' ');
const words = cleanText.replace(/[^\w\s]/g, ' ').trim().split(/\s+/);
return words.filter(word => word.length > 0).length;
```
-/
def countWords (text : Str) : ℕ :=
  let cleanText := replTags (str " ") text
  let punctCleared := cleanText.map (fun c => if !isWordChar c && !isWs c then ' ' else c)
  tokenCount punctCleared

/-- Embedding of `calculateTextToHtmlRatio` (contentFiltering.ts):
```
if (!html || html.length === 0) return 0;
const textContent = html.replace(/<[^>]*>/g, '').trim();
return textContent.length / html.length;
```
-/
def calculateTextToHtmlRatio (html : Str) : ℚ :=
  if html = [] then 0
  else ((trimStr (replTags [] html)).length : ℚ) / (html.length : ℚ)

/-- Occurrence test for the regex `<NAME[^>]*>` (case-insensitive): at some
position the lowered text starts with `<` followed by `tagName`, and a `>`
occurs at or after the end of that prefix (the first such `>` closes the
match, `[^>]*` absorbing the characters before it). -/
def tagOpenThenGt (tagName : Str) : Str → Bool
  | [] => false
  | c :: t =>
    (((str "<" ++ tagName).isPrefixOf (lowerStr (c :: t)))
        && ((lowerStr (c :: t)).drop (tagName.length + 1)).contains '>')
      || tagOpenThenGt tagName t

/-- Embedding of `hasImages` (contentFiltering.ts): `/<img[^>]*>/i.test(html)`. -/
def hasImages (html : Str) : Bool :=
  tagOpenThenGt (str "img") html

/-- Whether `html.match(/<(iframe|embed|object)[^>]*>/gi)` is non-empty:
for `isEmbedHeavy` only emptiness of the match list matters. -/
def hasEmbedTag (html : Str) : Bool :=
  tagOpenThenGt (str "iframe") html || tagOpenThenGt (str "embed") html
    || tagOpenThenGt (str "object") html

/-- Embedding of `isEmbedHeavy` (contentFiltering.ts):
```
const embedMatches = html.match(/<(iframe|embed|object)[^>]*>/gi) || [];
const contentLength = html.length;
return embedMatches.length > 0 && contentLength < 1000;
```
-/
def isEmbedHeavy (html : Str) : Bool :=
  hasEmbedTag html && html.length < 1000

/-! ## The post record

`routes.ts` accumulates each item into an ad-hoc dynamic object
(`currentPost`), whose properties are written generically by tag name and
whose values are strings (or, through the `Array.isArray` branch of
`ontext`, arrays). `contentFiltering.ts` receives that same object as its
`post: any` parameter. -/

/-- A JavaScript value stored in a dynamic post property: a string, or an
array of strings (the only two shapes `routes.ts` ever stores). -/
inductive JsVal where
  | str (s : Str)
  | arr (ls : List Str)
deriving DecidableEq

/-- JS truthiness of a property value: the empty string is falsy, every
other string and every array (even empty) is truthy. -/
def JsVal.truthy : JsVal → Bool
  | .str s => !(s = ([] : Str))
  | .arr _ => true

/-- JS truthiness of a possibly-absent property (`undefined` is falsy). -/
def truthyOpt : Option JsVal → Bool
  | none => false
  | some v => v.truthy

/-- The scratch value for one `<category>` element (`currentCategory` in
`routes.ts`): attributes may be absent (`undefined`). -/
structure JsCategory where
  domain : Option Str
  nicename : Option Str
  name : Str
deriving DecidableEq

/-- The in-progress post record: the dynamic tag-keyed property bag plus
the `metadata` sub-object (kept as separate fields; no WordPress export
tag is named `metadata`, so the separation is faithful). -/
structure JsPost where
  fields : List (Str × JsVal)
  categories : List Str
  tags : List Str
  customFields : List (Str × Str)
deriving DecidableEq

/-- Property read on the dynamic bag (`post[key]`). -/
def lookupField : List (Str × JsVal) → Str → Option JsVal
  | [], _ => none
  | (k, v) :: t, key => if k = key then some v else lookupField t key

/-- Property write on the dynamic bag (`post[key] = v`). -/
def setFieldAux : List (Str × JsVal) → Str → JsVal → List (Str × JsVal)
  | [], key, v => [(key, v)]
  | (k, w) :: t, key, v => if k = key then (k, v) :: t else (k, w) :: setFieldAux t key v

/-- Read `post[key]`. -/
def JsPost.get (p : JsPost) (key : Str) : Option JsVal := lookupField p.fields key

/-- Write `post[key] = v`. -/
def JsPost.set (p : JsPost) (key : Str) (v : JsVal) : JsPost :=
  { p with fields := setFieldAux p.fields key v }

/-- Defaulted read `post[key] || ''` for the string-typed reads of the classifier: absent
properties default to the empty string. Top-level properties only ever
hold strings (`ontext` pushes to arrays but never creates one, and the
initial record's non-`metadata` fields are strings), so the array case is
unreachable there and reads as the empty string. -/
def JsPost.getStr (p : JsPost) (key : Str) : Str :=
  match p.get key with
  | some (.str s) => s
  | some (.arr _) => []
  | none => []

/-! ## System-Page Classifier (`isSystemGeneratedPage`) -/

/-- Result shape of `isSystemGeneratedPage`: `pageType` is `none` for the
JS `null`. -/
structure SystemPageResult where
  isSystemPage : Bool
  pageType : Option Str
deriving DecidableEq

/-- Whether a string starts with `-`. -/
def startsWithDash : Str → Bool
  | '-' :: _ => true
  | _ => false

/-- The regex `-\d+$` has a match: the string ends in a non-empty digit
run whose preceding character is `-` (any match forces exactly this: the
matched digits extend to the string's maximal trailing digit run, since a
digit cannot precede a maximal run, and the dash precedes it). -/
def endsWithDashDigits (s : Str) : Bool :=
  let r := s.reverse
  let ds := r.takeWhile isDigit
  !(ds = ([] : Str)) && startsWithDash (r.drop ds.length)

/-- Whether the first character exists and is a digit. -/
def firstIsDigit : Str → Bool
  | c :: _ => isDigit c
  | [] => false

/-- Scan for the (already lowered) pattern `page ` followed by a digit. -/
def containsPageNumAux : Str → Bool
  | [] => false
  | c :: t =>
    ((str "page ").isPrefixOf (c :: t) && firstIsDigit ((c :: t).drop 5))
      || containsPageNumAux t

/-- The regex `/Page \d+/i` has a match: the text contains,
case-insensitively, `Page ` followed by at least one digit. -/
def containsPageNum (s : Str) : Bool := containsPageNumAux (lowerStr s)

/-- Rule 1 condition of `isSystemGeneratedPage` (tag or category page):
```
postType === 'page' && (
    postTitle.toLowerCase().includes('tag:') ||
    postTitle.toLowerCase().includes('category:') ||
    postName.includes('tag-') ||
    postName.includes('category-'))
```
-/
def sysTagPageCond (post : JsPost) : Bool :=
  let postType := post.getStr (str "wp:post_type")
  let postName := post.getStr (str "wp:post_name")
  let postTitle := post.getStr (str "title")
  postType = str "page" &&
    (containsSub (lowerStr postTitle) (str "tag:")
      || containsSub (lowerStr postTitle) (str "category:")
      || containsSub postName (str "tag-")
      || containsSub postName (str "category-"))

/-- Rule 2 condition of `isSystemGeneratedPage` (archive page):
```
postType === 'page' && (
    postTitle.toLowerCase().includes('archive') ||
    postName.includes('archive') ||
    postLink.includes('/20') && (postLink.includes('/0') || postLink.includes('/1')))
```
-/
def sysArchivePageCond (post : JsPost) : Bool :=
  let postType := post.getStr (str "wp:post_type")
  let postName := post.getStr (str "wp:post_name")
  let postTitle := post.getStr (str "title")
  let postLink := post.getStr (str "link")
  postType = str "page" &&
    (containsSub (lowerStr postTitle) (str "archive")
      || containsSub postName (str "archive")
      || (containsSub postLink (str "/20")
            && (containsSub postLink (str "/0") || containsSub postLink (str "/1"))))

/-- Rule 3 condition of `isSystemGeneratedPage` (author page):
```
postType === 'page' && (
    postTitle.toLowerCase().includes('author:') ||
    postName.includes('author-') ||
    postLink.includes('/author/'))
```
-/
def sysAuthorPageCond (post : JsPost) : Bool :=
  let postType := post.getStr (str "wp:post_type")
  let postName := post.getStr (str "wp:post_name")
  let postTitle := post.getStr (str "title")
  let postLink := post.getStr (str "link")
  postType = str "page" &&
    (containsSub (lowerStr postTitle) (str "author:")
      || containsSub postName (str "author-")
      || containsSub postLink (str "/author/"))

/-- Rule 4 condition of `isSystemGeneratedPage` (paginated duplicate), not
gated on the post type:
```
postLink.includes('/page/') ||
postName.includes('-page-') ||
postName.match(-\d+$) ||
postTitle.match(/Page \d+/i)
```
-/
def sysPaginatedCond (post : JsPost) : Bool :=
  let postName := post.getStr (str "wp:post_name")
  let postTitle := post.getStr (str "title")
  let postLink := post.getStr (str "link")
  containsSub postLink (str "/page/")
    || containsSub postName (str "-page-")
    || endsWithDashDigits postName
    || containsPageNum postTitle

/-- Embedding of `isSystemGeneratedPage` (contentFiltering.ts): the four rules checked
in order, first match winning. -/
def isSystemGeneratedPage (post : JsPost) : SystemPageResult :=
  if sysTagPageCond post then { isSystemPage := true, pageType := some (str "tag") }
  else if sysArchivePageCond post then { isSystemPage := true, pageType := some (str "archive") }
  else if sysAuthorPageCond post then { isSystemPage := true, pageType := some (str "author") }
  else if sysPaginatedCond post then { isSystemPage := true, pageType := some (str "paginated") }
  else { isSystemPage := false, pageType := none }

/-! ## Quality aggregation and the Filtering Decision Engine -/

/-- Options record `FilteringOptions` (contentFiltering.ts); thresholds are numbers in
the source, modelled as `ℕ` (word count) and `ℚ` (ratio). -/
structure FilteringOptions where
  filterLowValueContent : Bool
  minWordCount : ℕ
  minTextToHtmlRatio : ℚ
  excludeEmbedOnlyPosts : Bool
  excludeDraftPosts : Bool
  excludeNoImages : Bool
  excludeTagPages : Bool
  excludeArchivePages : Bool
  excludeAuthorPages : Bool
  excludePaginatedPages : Bool
deriving DecidableEq

/-- Metrics record `ContentQualityMetrics` (contentFiltering.ts). -/
structure ContentQualityMetrics where
  wordCount : ℕ
  textToHtmlRatio : ℚ
  hasImages : Bool
  hasEmbeds : Bool
  isLowValue : Bool
  pageType : Option Str
deriving DecidableEq

/-- Embedding of `analyzeContentQuality` (contentFiltering.ts): the four base metrics,
the optional system-page classification, the base low-value disjunction
and the system-page override. -/
def analyzeContentQuality (html : Str) (options : FilteringOptions)
    (post : Option JsPost) : ContentQualityMetrics :=
  let wordCount := countWords html
  let textToHtmlRatio := calculateTextToHtmlRatio html
  let contentHasImages := hasImages html
  let isEmbedContent := isEmbedHeavy html
  let sysCheck : SystemPageResult :=
    match post with
    | some p => isSystemGeneratedPage p
    | none => { isSystemPage := false, pageType := none }
  let isSystemPage := sysCheck.isSystemPage
  let pageType := sysCheck.pageType
  let isLowValueBase :=
    decide (wordCount < options.minWordCount)
      || decide (textToHtmlRatio < options.minTextToHtmlRatio)
      || (options.excludeEmbedOnlyPosts && isEmbedContent)
      || (options.excludeNoImages && !contentHasImages)
  let isLowValue :=
    if isSystemPage &&
        ((pageType = some (str "tag") && options.excludeTagPages)
          || (pageType = some (str "archive") && options.excludeArchivePages)
          || (pageType = some (str "author") && options.excludeAuthorPages)
          || (pageType = some (str "paginated") && options.excludePaginatedPages))
    then true else isLowValueBase
  { wordCount := wordCount
    textToHtmlRatio := textToHtmlRatio
    hasImages := contentHasImages
    hasEmbeds := isEmbedContent
    isLowValue := isLowValue
    pageType := if isSystemPage then pageType else none }

/-- Decimal rendering of a natural number. -/
def natToStr (n : ℕ) : Str := (toString n).data

/-- JS `Number.prototype.toFixed(2)` for the non-negative ratio values the
source formats: round to the nearest hundredth, half away from zero, then
print with exactly two decimals. (IEEE-754 representation error of the
double being formatted is not modelled.) -/
def toFixed2 (q : ℚ) : Str :=
  let n : ℕ := (⌊q * 100 + 1/2⌋).toNat
  natToStr (n / 100) ++ str "." ++ (if n % 100 < 10 then str "0" else []) ++ natToStr (n % 100)

/-- The skip reason `` `system-generated ${pageType} page` ``; a `null`
page type would interpolate as `"null"`, but the string is only built when
`isSystemPage` holds, where `pageType` is a string. -/
def sysSkipReason (pt : Option Str) : Str :=
  str "system-generated " ++ (match pt with | some s => s | none => str "null") ++ str " page"

/-- The skip reason
`` `low-value content (words: ${wordCount}, ratio: ${ratio.toFixed(2)})` ``. -/
def lowValueSkipReason (m : ContentQualityMetrics) : Str :=
  str "low-value content (words: " ++ natToStr m.wordCount
    ++ str ", ratio: " ++ toFixed2 m.textToHtmlRatio ++ str ")"

/-- Result shape of `shouldProcessPost`; the absent `skipReason` is
`none`. -/
structure ProcessDecision where
  shouldProcess : Bool
  qualityMetrics : Option ContentQualityMetrics
  skipReason : Option Str
deriving DecidableEq

/-- Embedding of `shouldProcessPost` (contentFiltering.ts): the Filtering Decision
Engine. `post['wp:status'] === 'draft'` is a strict equality, true only
when the property holds exactly that string. -/
def shouldProcessPost (post : JsPost) (htmlContent : Str)
    (options : FilteringOptions) : ProcessDecision :=
  if !options.filterLowValueContent then
    { shouldProcess := true, qualityMetrics := none, skipReason := none }
  else
    let qualityMetrics := analyzeContentQuality htmlContent options (some post)
    if qualityMetrics.isLowValue then
      let systemPageCheck := isSystemGeneratedPage post
      if systemPageCheck.isSystemPage then
        { shouldProcess := false, qualityMetrics := some qualityMetrics,
          skipReason := some (sysSkipReason systemPageCheck.pageType) }
      else
        { shouldProcess := false, qualityMetrics := some qualityMetrics,
          skipReason := some (lowValueSkipReason qualityMetrics) }
    else if options.excludeDraftPosts && post.get (str "wp:status") = some (.str (str "draft")) then
      { shouldProcess := false, qualityMetrics := some qualityMetrics,
        skipReason := some (str "draft post") }
    else
      { shouldProcess := true, qualityMetrics := some qualityMetrics, skipReason := none }

/-! ## routes.ts: the SAX event handlers of `processXmlFile` -/

/-- JS string coercion of a property value (`String(v)`): arrays join
their elements with `,`. -/
def JsVal.toStr : JsVal → Str
  | .str s => s
  | .arr ls => List.intercalate (String.data ",") ls

/-- Key assignment on a string-valued object (`obj[key] = value`): last
value wins on a duplicate key. -/
def setAssoc : List (Str × Str) → Str → Str → List (Str × Str)
  | [], key, v => [(key, v)]
  | (k, w) :: t, key, v => if k = key then (k, v) :: t else (k, w) :: setAssoc t key v

/-- The mutable accumulator state of `processXmlFile` (`routes.ts`)
together with its observable outputs: `processedCount`, and the sequence
of records handed to `storage.createMarkdownPost`. The Markdown renderer
(`turndownService.turndown`) and the storage sink are external
collaborators (spec §6), so an emitted record is kept as the pair of the
post's title and its pre-conversion HTML body; `currentContent` is
declared and reset by the source but never read. -/
structure ParserState where
  currentTag : Str
  currentContent : Str
  inItem : Bool
  inPostMeta : Bool
  currentPost : Option JsPost
  currentCategory : Option JsCategory
  currentMetaKey : Str
  currentMetaValue : Str
  processedCount : ℕ
  emitted : List (Str × Str)
deriving DecidableEq

/-- The fresh post record built at `open("item")`:
`{ title: '', content: '', date: '', slug: '', metadata: {...} }`
(the `metadata.author` initial field is never read or written afterwards —
the emitting code reads `currentPost['dc:creator']` instead — and is
omitted). -/
def freshPost : JsPost :=
  { fields := [(str "title", .str []), (str "content", .str []),
               (str "date", .str []), (str "slug", .str [])],
    categories := [], tags := [], customFields := [] }

/-- Embedding of `parser.onopentag` (routes.ts): record the tag, and start an item /
post-meta block / category scratch value (category attributes may be
absent). -/
def onopentag (name : Str) (attrDomain attrNicename : Option Str)
    (s : ParserState) : ParserState :=
  let s := { s with currentTag := name }
  if name = str "item" then
    { s with inItem := true, currentPost := some freshPost }
  else if name = str "wp:postmeta" then
    { s with inPostMeta := true, currentMetaKey := [], currentMetaValue := [] }
  else if name = str "category" && s.inItem then
    { s with currentCategory := some { domain := attrDomain, nicename := attrNicename, name := [] } }
  else s

/-- Embedding of `parser.ontext` (routes.ts):
```
if (inPostMeta) {
  if (currentTag === 'wp:meta_key') currentMetaKey = text.trim();
  else if (currentTag === 'wp:meta_value') currentMetaValue = text;
  return;
}
if (inItem && currentPost && currentTag) {
  if (!currentPost[currentTag]) currentPost[currentTag] = text;
  else if (Array.isArray(currentPost[currentTag])) currentPost[currentTag].push(text);
  else currentPost[currentTag] += text;
}
```
-/
def ontext (text : Str) (s : ParserState) : ParserState :=
  if s.inPostMeta then
    if s.currentTag = str "wp:meta_key" then { s with currentMetaKey := trimStr text }
    else if s.currentTag = str "wp:meta_value" then { s with currentMetaValue := text }
    else s
  else
    match s.currentPost with
    | some p =>
      if s.inItem && !(s.currentTag = ([] : Str)) then
        match p.get s.currentTag with
        | none => { s with currentPost := some (p.set s.currentTag (.str text)) }
        | some v =>
          if !v.truthy then { s with currentPost := some (p.set s.currentTag (.str text)) }
          else match v with
            | .arr ls => { s with currentPost := some (p.set s.currentTag (.arr (ls ++ [text]))) }
            | .str old => { s with currentPost := some (p.set s.currentTag (.str (old ++ text))) }
      else s
    | none => s

/-- Embedding of `parser.oncdata` (routes.ts):
```
if (inPostMeta && currentTag === 'wp:meta_value') { currentMetaValue = text; return; }
if (inItem && currentPost) {
  if (currentTag === 'content:encoded') {
    if (!currentPost[currentTag]) currentPost[currentTag] = text;
    else currentPost[currentTag] += text;
  } else if (currentTag === 'excerpt:encoded') currentPost[currentTag] = text;
  else if (currentTag === 'dc:creator') currentPost[currentTag] = text;
  else if (currentTag === 'category' && currentCategory) currentCategory.name = text;
}
```
(`+=` on a non-string value would coerce through `JsVal.toStr`; the
content field only ever holds strings.)
-/
def oncdata (text : Str) (s : ParserState) : ParserState :=
  if s.inPostMeta && s.currentTag = str "wp:meta_value" then
    { s with currentMetaValue := text }
  else
    match s.currentPost with
    | some p =>
      if s.inItem then
        if s.currentTag = str "content:encoded" then
          match p.get s.currentTag with
          | none => { s with currentPost := some (p.set s.currentTag (.str text)) }
          | some v =>
            if !v.truthy then { s with currentPost := some (p.set s.currentTag (.str text)) }
            else { s with currentPost := some (p.set s.currentTag (.str (v.toStr ++ text))) }
        else if s.currentTag = str "excerpt:encoded" then
          { s with currentPost := some (p.set s.currentTag (.str text)) }
        else if s.currentTag = str "dc:creator" then
          { s with currentPost := some (p.set s.currentTag (.str text)) }
        else if s.currentTag = str "category" then
          match s.currentCategory with
          | some c => { s with currentCategory := some { c with name := text } }
          | none => s
        else s
      else s
    | none => s

/-- The completeness guard of the `item` close branch:
`currentPost.title && (currentPost.content || currentPost['content:encoded'])`. -/
def completePost (p : JsPost) : Bool :=
  truthyOpt (p.get (str "title"))
    && (truthyOpt (p.get (str "content")) || truthyOpt (p.get (str "content:encoded")))

/-- Resolution of the HTML body, `currentPost['content:encoded'] || currentPost.content`: the first
truthy operand, else the second (read as a string; the guard ensures one
of the two is a truthy string). -/
def resolvedHtml (p : JsPost) : Str :=
  match p.get (str "content:encoded") with
  | some v =>
    if v.truthy then v.toStr
    else match p.get (str "content") with
         | some w => w.toStr
         | none => []
  | none =>
    match p.get (str "content") with
    | some w => w.toStr
    | none => []

/-- Embedding of `parser.onclosetag` (routes.ts): the post-meta / category / item
branches in source order, then the unconditional
`currentTag = ''; currentContent = ''`. Storage progress calls
(`updateConversionProgress` every 5 posts) write to the external storage
sink and have no effect on this state. -/
def onclosetag (tagName : Str) (options : FilteringOptions)
    (s : ParserState) : ParserState :=
  let s' :=
    if tagName = str "wp:postmeta" && s.inPostMeta && s.currentPost.isSome then
      let s2 := { s with inPostMeta := false }
      match s.currentPost with
      | some p =>
        if !(s.currentMetaKey = ([] : Str)) && !(s.currentMetaValue = ([] : Str)) then
          { s2 with
            currentPost := some ({ p with
              customFields := setAssoc p.customFields s.currentMetaKey s.currentMetaValue }) }
        else s2
      | none => s2
    else if tagName = str "category" && s.inItem && s.currentPost.isSome
        && s.currentCategory.isSome then
      match s.currentPost, s.currentCategory with
      | some p, some c =>
        let p' :=
          if c.domain = some (str "category") then { p with categories := p.categories ++ [c.name] }
          else if c.domain = some (str "post_tag") then { p with tags := p.tags ++ [c.name] }
          else p
        { s with currentPost := some p', currentCategory := none }
      | _, _ => s
    else if tagName = str "item" && s.inItem && s.currentPost.isSome
        && (match s.currentPost with | some p => completePost p | none => false) then
      match s.currentPost with
      | some p =>
        let htmlContent := resolvedHtml p
        let filteringResult := shouldProcessPost p htmlContent options
        let emitted' :=
          if filteringResult.shouldProcess then
            s.emitted ++ [(p.getStr (str "title"), htmlContent)]
          else s.emitted
        { s with emitted := emitted', processedCount := s.processedCount + 1,
                 inItem := false, currentPost := none }
      | none => s
    else s
  { s' with currentTag := [], currentContent := [] }

/-! ## routes.ts: the progress endpoint -/

/-- The conversion record as read by `GET /api/conversions/:id/progress`;
counter fields may be absent (the route guards with `|| 0`). -/
structure Conversion where
  status : Str
  processedPosts : Option ℕ
  totalPosts : Option ℕ
deriving DecidableEq

/-- JS `Math.round`: round half toward positive infinity. -/
def jsRound (q : ℚ) : ℤ := ⌊q + 1/2⌋

/-- The percentage computed by the progress route (routes.ts):
```
const processedPosts = conversion.processedPosts || 0;
const totalPosts = conversion.totalPosts || 0;
percentage: totalPosts > 0 ? Math.round((processedPosts / totalPosts) * 100) : 0
```
-/
def progressPercentage (c : Conversion) : ℤ :=
  let processedPosts : ℕ := c.processedPosts.getD 0
  let totalPosts : ℕ := c.totalPosts.getD 0
  if totalPosts > 0 then jsRound (((processedPosts : ℚ) / (totalPosts : ℚ)) * 100)
  else 0

end WpMd

namespace WpMd

/-! ## Derived accessors and sample inputs -/

/-- The stored content body of a post record, read as a string (absent ↦
empty). -/
def postBody (p : JsPost) : Str :=
  match p.get (str "content:encoded") with
  | some v => v.toStr
  | none => []

/-- The content body held by the accumulator state. -/
def contentBody (s : ParserState) : Str :=
  match s.currentPost with
  | some p => postBody p
  | none => []

/-- The value of a field of the accumulator's in-progress post. -/
def fieldVal (s : ParserState) (key : Str) : Option JsVal :=
  match s.currentPost with
  | some p => p.get key
  | none => none

/-- Match of a year-like path segment at the head of the text:
`/20` followed by two digits, then `/0` or `/1` followed by a digit. -/
def yearSegHere : Str → Bool
  | '/' :: '2' :: '0' :: d1 :: d2 :: '/' :: m1 :: m2 :: _ =>
    isDigit d1 && isDigit d2 && (m1 = '0' || m1 = '1') && isDigit m2
  | _ => false

/-- Scan for a year-like path segment anywhere in the text. -/
def yearSegAux : Str → Bool
  | [] => false
  | c :: t => yearSegHere (c :: t) || yearSegAux t

/-- Modelled from the spec: the claim's "year-like path segment such as
`/20xx/0x` or `/20xx/1x`" — an occurrence of `/20` followed by two
digits, a slash, `0` or `1`, and a digit. Stated from the spec's words,
for comparison with the code's substring tests. -/
def specYearLikePathSegment (s : Str) : Bool := yearSegAux s

/-- A minimal post record for the classifier and decision-engine
witnesses. -/
def mkClassifierPost (ty name title link : String) : JsPost :=
  { fields := [(str "wp:post_type", .str (str ty)),
               (str "wp:post_name", .str (str name)),
               (str "title", .str (str title)),
               (str "link", .str (str link))],
    categories := [], tags := [], customFields := [] }

/-- A page whose permalink contains `/20` and `/1` without any year-like
path segment, and whose title and slug avoid every other classifier
signal. -/
def archiveEdgePost : JsPost := mkClassifierPost "page" "intro" "X" "/20-tips/1-intro"

/-- A draft post carrying only a status, for the decision-engine
witness. -/
def draftOnlyPost : JsPost :=
  { fields := [(str "wp:status", .str (str "draft"))],
    categories := [], tags := [], customFields := [] }

/-- A filtering configuration with zero thresholds and only the draft
exclusion enabled. -/
def draftOnlyOptions : FilteringOptions :=
  { filterLowValueContent := true, minWordCount := 0, minTextToHtmlRatio := 0,
    excludeEmbedOnlyPosts := false, excludeDraftPosts := true, excludeNoImages := false,
    excludeTagPages := false, excludeArchivePages := false, excludeAuthorPages := false,
    excludePaginatedPages := false }

/-- An accumulator state inside an item, positioned on the content-body
tag, with a fresh post record. -/
def cdataDemoState : ParserState :=
  { currentTag := str "content:encoded", currentContent := [],
    inItem := true, inPostMeta := false,
    currentPost := some freshPost, currentCategory := none,
    currentMetaKey := [], currentMetaValue := [],
    processedCount := 0, emitted := [] }

/-- An accumulator state inside an item, positioned on `title`, whose
post already holds the non-empty title `A`. -/
def titleSetState : ParserState :=
  { currentTag := str "title", currentContent := [],
    inItem := true, inPostMeta := false,
    currentPost := some
      ({ fields := [(str "title", .str (str "A")), (str "content", .str []),
                    (str "date", .str []), (str "slug", .str [])],
         categories := [], tags := [], customFields := [] }),
    currentCategory := none,
    currentMetaKey := [], currentMetaValue := [],
    processedCount := 0, emitted := [] }

/-- An accumulator state whose item is about to close with an empty
title (an incomplete record). -/
def incompleteItemState : ParserState :=
  { currentTag := str "item", currentContent := [],
    inItem := true, inPostMeta := false,
    currentPost := some
      ({ fields := [(str "title", .str []), (str "content", .str (str "<p>body</p>")),
                    (str "date", .str []), (str "slug", .str [])],
         categories := [], tags := [], customFields := [] }),
    currentCategory := none,
    currentMetaKey := [], currentMetaValue := [],
    processedCount := 0, emitted := [] }

/-- An accumulator state whose item is about to close with a title and a
body (a complete record). -/
def completeItemState : ParserState :=
  { currentTag := str "item", currentContent := [],
    inItem := true, inPostMeta := false,
    currentPost := some
      ({ fields := [(str "title", .str (str "T")), (str "content", .str (str "<p>body</p>")),
                    (str "date", .str []), (str "slug", .str [])],
         categories := [], tags := [], customFields := [] }),
    currentCategory := none,
    currentMetaKey := [], currentMetaValue := [],
    processedCount := 0, emitted := [] }

/-! ## Theorems -/

/-- C1: for every HTML body, filtering options and optional post record,
`analyzeContentQuality` returns `isLowValue = true` iff the word count is
below `minWordCount`, or the text-to-markup ratio is below
`minTextToHtmlRatio`, or `excludeEmbedOnlyPosts` is enabled and the body
is embed-heavy, or `excludeNoImages` is enabled and the body has no
images, or a post record was supplied that the classifier flags as a
system page whose matching per-page-type exclusion option is enabled (the
system-page case forcing `isLowValue` regardless of the quality
signals). -/
theorem analyzeContentQuality_isLowValue_iff
    (html : Str) (options : FilteringOptions) (post : Option JsPost) :
    (analyzeContentQuality html options post).isLowValue = true ↔
      (countWords html < options.minWordCount
        ∨ calculateTextToHtmlRatio html < options.minTextToHtmlRatio
        ∨ (options.excludeEmbedOnlyPosts = true ∧ isEmbedHeavy html = true)
        ∨ (options.excludeNoImages = true ∧ hasImages html = false)
        ∨ (∃ p, post = some p ∧ (isSystemGeneratedPage p).isSystemPage = true
            ∧ (((isSystemGeneratedPage p).pageType = some (str "tag") ∧ options.excludeTagPages = true)
              ∨ ((isSystemGeneratedPage p).pageType = some (str "archive") ∧ options.excludeArchivePages = true)
              ∨ ((isSystemGeneratedPage p).pageType = some (str "author") ∧ options.excludeAuthorPages = true)
              ∨ ((isSystemGeneratedPage p).pageType = some (str "paginated") ∧ options.excludePaginatedPages = true)))) := by
  cases post with
  | none =>
    simp only [analyzeContentQuality]
    simp only [Bool.false_and, Bool.false_eq_true, if_false, Bool.or_eq_true,
      decide_eq_true_eq, Bool.and_eq_true, Bool.not_eq_true']
    constructor
    · rintro (((h | h) | h) | h) <;> tauto
    · rintro (h | h | h | h | ⟨p, hp, _⟩) <;> tauto
  | some p =>
    simp only [analyzeContentQuality, Option.some.injEq]
    split
    · rename_i h
      simp only [Bool.and_eq_true, Bool.or_eq_true, decide_eq_true_eq] at h
      simp only [true_iff]
      exact Or.inr (Or.inr (Or.inr (Or.inr ⟨p, rfl, h.1, by tauto⟩)))
    · rename_i h
      simp only [Bool.and_eq_true, Bool.or_eq_true, decide_eq_true_eq, not_and, not_or] at h
      simp only [Bool.or_eq_true, decide_eq_true_eq, Bool.and_eq_true, Bool.not_eq_true']
      constructor
      · rintro (((h1 | h1) | h1) | h1) <;> tauto
      · rintro (h1 | h1 | h1 | h1 | ⟨q, hq, hsys, hd⟩) <;> try tauto
        cases hq
        have hc := h hsys
        rcases hd with ⟨he, hb⟩ | ⟨he, hb⟩ | ⟨he, hb⟩ | ⟨he, hb⟩
        · exact absurd hb (hc.1.1.1 he)
        · exact absurd hb (hc.1.1.2 he)
        · exact absurd hb (hc.1.2 he)
        · exact absurd hb (hc.2 he)

/-- Auxiliary: a flushed chunk never grows by more than its terminating
`>` when the replacement is empty. -/
theorem length_gtChunkOut_nil (chunk : Str) :
    (gtChunkOut [] chunk).length ≤ chunk.length + 1 := by
  unfold gtChunkOut
  split
  · simp only [List.length_append, List.length_nil, Nat.add_zero]
    exact le_trans (List.takeWhile_sublist _).length_le (Nat.le_succ _)
  · simp

/-- Auxiliary: replacing every `<…>` group by the empty string never
lengthens the text. -/
theorem length_replTagsAux_nil (s : Str) :
    ∀ chunk : Str, (replTagsAux [] chunk s).length ≤ chunk.length + s.length := by
  induction s with
  | nil => intro chunk; simp [replTagsAux]
  | cons c t ih =>
    intro chunk
    simp only [replTagsAux]
    split
    · have h1 := length_gtChunkOut_nil chunk
      have h2 := ih []
      simp only [List.length_append, List.length_cons, List.length_nil] at h1 h2 ⊢
      omega
    · have h := ih (chunk ++ [c])
      simp only [List.length_append, List.length_cons, List.length_nil] at h ⊢
      omega

/-- Auxiliary: trimming never lengthens the text. -/
theorem length_trimStr_le (s : Str) : (trimStr s).length ≤ s.length := by
  calc (trimStr s).length
      = ((s.dropWhile isWs).reverse.dropWhile isWs).length := by simp [trimStr]
    _ ≤ (s.dropWhile isWs).reverse.length := (List.dropWhile_sublist _).length_le
    _ = (s.dropWhile isWs).length := by simp
    _ ≤ s.length := (List.dropWhile_sublist _).length_le

/-- C8: for every HTML input the text-to-markup ratio lies in the closed
interval from 0 to 1 (the stripped, trimmed text is never longer than the
original), and the empty input yields exactly 0 — the division-by-zero
guard, never the division, handles that case. -/
theorem calculateTextToHtmlRatio_bounds :
    (∀ html : Str, 0 ≤ calculateTextToHtmlRatio html ∧ calculateTextToHtmlRatio html ≤ 1)
    ∧ calculateTextToHtmlRatio [] = 0 := by
  constructor
  · intro html
    unfold calculateTextToHtmlRatio
    split
    · norm_num
    · rename_i h
      have hlen : 0 < html.length := List.length_pos.mpr h
      have hb : (0:ℚ) < (html.length : ℚ) := by exact_mod_cast hlen
      constructor
      · positivity
      · rw [div_le_one hb]
        have hle : (trimStr (replTags [] html)).length ≤ html.length := by
          calc (trimStr (replTags [] html)).length
              ≤ (replTags [] html).length := length_trimStr_le _
            _ ≤ ([] : Str).length + html.length := length_replTagsAux_nil html []
            _ = html.length := by simp
        exact_mod_cast hle
  · rfl

/-- C5: a post matching none of the tag/category, archive and author
rules, whose permalink contains `/page/`, or whose slug contains
`-page-`, or whose slug ends in `-<digits>`, or whose title contains
`Page <digits>` case-insensitively, is classified as a paginated
duplicate — with no condition on the post's type, the four rules being
checked in priority order. -/
theorem isSystemGeneratedPage_paginated (post : JsPost)
    (h1 : sysTagPageCond post = false)
    (h2 : sysArchivePageCond post = false)
    (h3 : sysAuthorPageCond post = false)
    (h4 : containsSub (post.getStr (str "link")) (str "/page/") = true
        ∨ containsSub (post.getStr (str "wp:post_name")) (str "-page-") = true
        ∨ endsWithDashDigits (post.getStr (str "wp:post_name")) = true
        ∨ containsPageNum (post.getStr (str "title")) = true) :
    isSystemGeneratedPage post = { isSystemPage := true, pageType := some (str "paginated") } := by
  have h4' : sysPaginatedCond post = true := by
    unfold sysPaginatedCond
    rcases h4 with h | h | h | h <;> simp [h]
  unfold isSystemGeneratedPage
  simp [h1, h2, h3, h4']

/-- Witness for C5: a regular (non-page) post whose slug contains
`-page-` is classified as a paginated duplicate. -/
theorem isSystemGeneratedPage_paginated_witness :
    isSystemGeneratedPage
        (mkClassifierPost "post" "example-post-page-2" "Example Post Page 2"
          "https://example.com/example-post/page/2")
      = { isSystemPage := true, pageType := some (str "paginated") } :=
  isSystemGeneratedPage_paginated _ (by decide) (by decide) (by decide)
    (Or.inl (by decide))

/-- C6 counterexample: a page whose permalink `/20-tips/1-intro` contains
no year-like path segment (and whose title and slug do not contain
`archive`) is nonetheless classified as an archive page, because the code
only tests the substrings `/20` and `/0` / `/1` independently. -/
theorem isSystemGeneratedPage_archive_counterexample :
    (isSystemGeneratedPage archiveEdgePost).pageType = some (str "archive")
    ∧ archiveEdgePost.getStr (str "wp:post_type") = str "page"
    ∧ specYearLikePathSegment (archiveEdgePost.getStr (str "link")) = false
    ∧ containsSub (lowerStr (archiveEdgePost.getStr (str "title"))) (str "archive") = false
    ∧ containsSub (archiveEdgePost.getStr (str "wp:post_name")) (str "archive") = false := by
  decide

/-- C6 (amended): for a page not matching the tag/category rule, the
classifier returns `archive` iff the lowered title contains `archive`, or
the slug contains `archive`, or the permalink contains the substring
`/20` and also contains `/0` or `/1` — the code's substring tests, not a
true year-like path-segment match. -/
theorem isSystemGeneratedPage_archive_iff (post : JsPost)
    (hpage : post.getStr (str "wp:post_type") = str "page")
    (h1 : sysTagPageCond post = false) :
    (isSystemGeneratedPage post).pageType = some (str "archive") ↔
      (containsSub (lowerStr (post.getStr (str "title"))) (str "archive") = true
        ∨ containsSub (post.getStr (str "wp:post_name")) (str "archive") = true
        ∨ (containsSub (post.getStr (str "link")) (str "/20") = true
            ∧ (containsSub (post.getStr (str "link")) (str "/0") = true
              ∨ containsSub (post.getStr (str "link")) (str "/1") = true))) := by
  have harch : sysArchivePageCond post = true ↔
      (containsSub (lowerStr (post.getStr (str "title"))) (str "archive") = true
        ∨ containsSub (post.getStr (str "wp:post_name")) (str "archive") = true
        ∨ (containsSub (post.getStr (str "link")) (str "/20") = true
            ∧ (containsSub (post.getStr (str "link")) (str "/0") = true
              ∨ containsSub (post.getStr (str "link")) (str "/1") = true))) := by
    simp only [sysArchivePageCond]
    rw [hpage]
    simp [Bool.and_eq_true, Bool.or_eq_true]
    tauto
  unfold isSystemGeneratedPage
  simp only [h1, Bool.false_eq_true, if_false]
  by_cases h2 : sysArchivePageCond post = true
  · rw [if_pos h2]
    exact iff_of_true rfl (harch.mp h2)
  · rw [if_neg h2]
    apply iff_of_false
    · split
      · decide
      · split
        · decide
        · decide
    · exact fun hr => h2 (harch.mpr hr)

/-- Witness for C6: a page titled `Archives` (no other signals) is
classified as an archive page through the title clause. -/
theorem isSystemGeneratedPage_archive_witness :
    (isSystemGeneratedPage (mkClassifierPost "page" "x" "Archives" "")).pageType
      = some (str "archive") :=
  (isSystemGeneratedPage_archive_iff _ (by decide) (by decide)).mpr (Or.inl (by decide))

/-- C2: with `filterLowValueContent` disabled, `shouldProcessPost`
accepts every post, returns no quality metrics and no skip reason. -/
theorem shouldProcessPost_filterDisabled
    (post : JsPost) (html : Str) (options : FilteringOptions)
    (h : options.filterLowValueContent = false) :
    shouldProcessPost post html options =
      { shouldProcess := true, qualityMetrics := none, skipReason := none } := by
  unfold shouldProcessPost
  rw [h]
  simp

/-- Witness for C2 at a concrete post, body and configuration. -/
theorem shouldProcessPost_filterDisabled_witness :
    shouldProcessPost freshPost (str "<p>draft</p>")
        { filterLowValueContent := false, minWordCount := 700, minTextToHtmlRatio := 1/2,
          excludeEmbedOnlyPosts := true, excludeDraftPosts := true, excludeNoImages := true,
          excludeTagPages := true, excludeArchivePages := true, excludeAuthorPages := true,
          excludePaginatedPages := true } =
      { shouldProcess := true, qualityMetrics := none, skipReason := none } :=
  shouldProcessPost_filterDisabled _ _ _ rfl

/-- Auxiliary: a system-page skip reason starts with `s`, hence never
equals `draft post`. -/
theorem sysSkipReason_ne_draft (pt : Option Str) : sysSkipReason pt ≠ str "draft post" := by
  intro h
  have h1 : (sysSkipReason pt).head? = some 's' := by cases pt <;> rfl
  rw [h] at h1
  exact absurd h1 (by decide)

/-- Auxiliary: a low-value skip reason starts with `l`, hence never
equals `draft post`. -/
theorem lowValueSkipReason_ne_draft (m : ContentQualityMetrics) :
    lowValueSkipReason m ≠ str "draft post" := by
  intro h
  have h1 : (lowValueSkipReason m).head? = some 'l' := rfl
  rw [h] at h1
  exact absurd h1 (by decide)

/-- C7: with filtering enabled, draft exclusion on, and the post's status
`draft`, the decision engine rejects the post; when the quality check did
not fire, the reason is exactly `draft post`; when the body is low-value,
the reported reason is the system-page or low-value reason — never
`draft post` — so only the first-matched reason is reported while the
accept boolean is false either way. -/
theorem shouldProcessPost_draft (post : JsPost) (html : Str) (options : FilteringOptions)
    (hEn : options.filterLowValueContent = true)
    (hEx : options.excludeDraftPosts = true)
    (hDr : post.get (str "wp:status") = some (.str (str "draft"))) :
    (shouldProcessPost post html options).shouldProcess = false
    ∧ ((analyzeContentQuality html options (some post)).isLowValue = false →
        (shouldProcessPost post html options).skipReason = some (str "draft post"))
    ∧ ((analyzeContentQuality html options (some post)).isLowValue = true →
        (shouldProcessPost post html options).skipReason =
          some (if (isSystemGeneratedPage post).isSystemPage then
                  sysSkipReason (isSystemGeneratedPage post).pageType
                else lowValueSkipReason (analyzeContentQuality html options (some post)))
        ∧ (shouldProcessPost post html options).skipReason ≠ some (str "draft post")) := by
  by_cases hLow : (analyzeContentQuality html options (some post)).isLowValue = true
  · simp only [shouldProcessPost, hEn, Bool.not_true, Bool.false_eq_true, if_false,
      hLow, if_true]
    refine ⟨by split <;> rfl, fun hF => absurd hF (by simp), fun _ => ⟨?_, ?_⟩⟩
    · by_cases hS : (isSystemGeneratedPage post).isSystemPage = true
      · simp [hS]
      · simp [hS]
    · by_cases hS : (isSystemGeneratedPage post).isSystemPage = true
      · simp only [hS, if_true]
        intro h
        exact sysSkipReason_ne_draft _ (Option.some.injEq _ _ ▸ h)
      · simp only [hS, Bool.false_eq_true, if_false]
        intro h
        exact lowValueSkipReason_ne_draft _ (Option.some.injEq _ _ ▸ h)
  · have hLowF : (analyzeContentQuality html options (some post)).isLowValue = false := by
      simpa using hLow
    simp only [shouldProcessPost, hEn, Bool.not_true, Bool.false_eq_true, if_false,
      hLowF, hEx, hDr, if_true, true_and, decide_eq_true_eq]
    refine ⟨?_, fun _ => ?_, fun hT => absurd hT (by simp [hLowF])⟩
    · simp
    · simp

/-- Witness for C7: a non-low-value draft (empty body, zero thresholds)
is rejected with the reason `draft post`. -/
theorem shouldProcessPost_draft_witness :
    (shouldProcessPost draftOnlyPost [] draftOnlyOptions).shouldProcess = false
    ∧ (shouldProcessPost draftOnlyPost [] draftOnlyOptions).skipReason = some (str "draft post") := by
  have h := shouldProcessPost_draft draftOnlyPost [] draftOnlyOptions rfl rfl (by decide)
  exact ⟨h.1, h.2.1 (by decide)⟩

/-- Auxiliary: writing a property makes it readable back. -/
theorem lookupField_setFieldAux (fs : List (Str × JsVal)) (k : Str) (v : JsVal) :
    lookupField (setFieldAux fs k v) k = some v := by
  induction fs with
  | nil => simp [setFieldAux, lookupField]
  | cons h t ih =>
    obtain ⟨k0, v0⟩ := h
    by_cases hk : k0 = k
    · simp [setFieldAux, lookupField, hk]
    · simp [setFieldAux, lookupField, hk, ih]

/-- Auxiliary: `post[key] = v` followed by `post[key]` yields `v`. -/
theorem JsPost.get_set_same (p : JsPost) (k : Str) (v : JsVal) :
    (p.set k v).get k = some v :=
  lookupField_setFieldAux p.fields k v

/-- Auxiliary: one CDATA delivery for the content-body field stores the
previous body (empty when unset) with the delivered text appended, and
changes nothing else in the accumulator state. -/
theorem oncdata_content_step (s : ParserState) (p : JsPost) (text : Str)
    (hItem : s.inItem = true) (hPost : s.currentPost = some p)
    (hTag : s.currentTag = str "content:encoded") :
    oncdata text s =
      { s with currentPost := some (p.set (str "content:encoded") (.str (postBody p ++ text))) } := by
  unfold oncdata
  rw [hTag, hPost]
  have hd1 : (decide (str "content:encoded" = str "wp:meta_value")) = false := by decide
  simp only [hd1, Bool.and_false, Bool.false_eq_true, if_false, hItem, if_true]
  cases hv : p.get (str "content:encoded") with
  | none => simp [postBody, hv, JsVal.toStr]
  | some v =>
    cases v with
    | str s0 =>
      by_cases h0 : s0 = ([] : Str)
      · subst h0; simp [postBody, hv, JsVal.truthy, JsVal.toStr]
      · simp [postBody, hv, JsVal.truthy, JsVal.toStr, h0]
    | arr ls => simp [postBody, hv, JsVal.truthy, JsVal.toStr]

/-- C3: two sequential CDATA deliveries for the content-body field of the
same in-progress item append to the current body — the second delivery
concatenates rather than replaces. -/
theorem oncdata_content_append_twice (s : ParserState) (p : JsPost) (c1 c2 : Str)
    (hItem : s.inItem = true) (hPost : s.currentPost = some p)
    (hTag : s.currentTag = str "content:encoded") :
    contentBody (oncdata c2 (oncdata c1 s)) = contentBody s ++ c1 ++ c2 := by
  have h1 := oncdata_content_step s p c1 hItem hPost hTag
  have h2 := oncdata_content_step
    ({ s with currentPost := some (p.set (str "content:encoded") (.str (postBody p ++ c1))) })
    (p.set (str "content:encoded") (.str (postBody p ++ c1))) c2 hItem rfl hTag
  rw [h1, h2]
  have hb1 : postBody (p.set (str "content:encoded") (.str (postBody p ++ c1)))
      = postBody p ++ c1 := by
    simp [postBody, JsPost.get_set_same, JsVal.toStr]
  simp only [contentBody, hPost, postBody, JsPost.get_set_same, JsVal.toStr, hb1]

/-- Witness for C3: on an empty body, delivering `<p>A</p>` then
`<p>B</p>` yields the concatenated body. -/
theorem oncdata_content_append_twice_witness :
    contentBody (oncdata (str "<p>B</p>") (oncdata (str "<p>A</p>") cdataDemoState))
      = contentBody cdataDemoState ++ str "<p>A</p>" ++ str "<p>B</p>" :=
  oncdata_content_append_twice cdataDemoState freshPost _ _ rfl rfl rfl

/-- C4 counterexample: a second text delivery for the scalar `title`
field, already set to the non-empty value `A`, changes the field (to
`AB`) — the first non-empty value does not win. -/
theorem scalarField_first_wins_counterexample :
    fieldVal titleSetState (str "title") = some (.str (str "A"))
    ∧ fieldVal (ontext (str "B") titleSetState) (str "title") ≠ some (.str (str "A")) := by
  decide

/-- C4 (amended): for a scalar field already set to a non-empty value, a
second text delivery appends (generic accumulation concatenates string
fields); a second CDATA delivery overwrites the field for
`excerpt:encoded` and `dc:creator` and leaves every other scalar field
(those outside the content/category CDATA paths) unchanged. -/
theorem scalarField_second_delivery (s : ParserState) (p : JsPost) (v t : Str)
    (hMeta : s.inPostMeta = false) (hItem : s.inItem = true)
    (hPost : s.currentPost = some p) (hTagNe : s.currentTag ≠ ([] : Str))
    (hv : p.get s.currentTag = some (.str v)) (hne : v ≠ ([] : Str)) :
    fieldVal (ontext t s) s.currentTag = some (.str (v ++ t))
    ∧ ((s.currentTag = str "excerpt:encoded" ∨ s.currentTag = str "dc:creator") →
        fieldVal (oncdata t s) s.currentTag = some (.str t))
    ∧ ((s.currentTag ≠ str "content:encoded" ∧ s.currentTag ≠ str "excerpt:encoded"
          ∧ s.currentTag ≠ str "dc:creator" ∧ s.currentTag ≠ str "category") →
        fieldVal (oncdata t s) s.currentTag = p.get s.currentTag) := by
  refine ⟨?_, ?_, ?_⟩
  · unfold ontext
    rw [hMeta, hPost]
    simp only [Bool.false_eq_true, if_false, hItem, hTagNe, not_false_eq_true,
      decide_not, decide_eq_true_eq, Bool.true_and, hv]
    simp [JsVal.truthy, hne, fieldVal, JsPost.get_set_same]
  · intro hT
    unfold oncdata
    rw [hMeta, hPost]
    rcases hT with h | h <;>
      simp_all [fieldVal, JsPost.get_set_same, show ¬(str "excerpt:encoded" = str "wp:meta_value") from by decide,
        show ¬(str "dc:creator" = str "wp:meta_value") from by decide,
        show ¬(str "excerpt:encoded" = str "content:encoded") from by decide,
        show ¬(str "dc:creator" = str "content:encoded") from by decide,
        show ¬(str "dc:creator" = str "excerpt:encoded") from by decide]
  · rintro ⟨hc1, hc2, hc3, hc4⟩
    unfold oncdata
    rw [hMeta, hPost]
    simp only [Bool.false_and, Bool.false_eq_true, if_false, hItem, if_true, hc1, hc2, hc3, hc4]
    simp [fieldVal, hPost]

/-- Witness for C4: with `title` set to `A`, a text delivery of `B`
leaves the field equal to `AB`. -/
theorem scalarField_second_delivery_witness :
    fieldVal (ontext (str "B") titleSetState) (str "title") = some (.str (str "AB")) := by
  have h := scalarField_second_delivery titleSetState
    ({ fields := [(str "title", .str (str "A")), (str "content", .str []),
                  (str "date", .str []), (str "slug", .str [])],
       categories := [], tags := [], customFields := [] })
    (str "A") (str "B") rfl rfl rfl (by decide) (by decide) (by decide)
  exact h.1

/-- C9 counterexample: an item that closes while its record lacks a
required field (empty title) is not counted toward `processed` — the
counter stays at 0 instead of the claimed increment — and is never
emitted. -/
theorem onclosetag_incomplete_not_counted :
    incompleteItemState.inItem = true
    ∧ incompleteItemState.currentPost.isSome = true
    ∧ incompleteItemState.processedCount = 0
    ∧ (onclosetag (str "item") draftOnlyOptions incompleteItemState).processedCount = 0
    ∧ (onclosetag (str "item") draftOnlyOptions incompleteItemState).emitted = [] := by
  decide

/-- C9 (amended): at an item close, the `processed` counter increments
exactly once when the record has its required fields (whatever the
filtering decision), while an item closing without them is silently
discarded: not emitted and not counted. -/
theorem onclosetag_item_counts (s : ParserState) (p : JsPost) (options : FilteringOptions)
    (hItem : s.inItem = true) (hPost : s.currentPost = some p) :
    (completePost p = true →
        (onclosetag (str "item") options s).processedCount = s.processedCount + 1)
    ∧ (completePost p = false →
        (onclosetag (str "item") options s).processedCount = s.processedCount
        ∧ (onclosetag (str "item") options s).emitted = s.emitted) := by
  have hd1 : (decide (str "item" = str "wp:postmeta")) = false := by decide
  have hd2 : (decide (str "item" = str "category")) = false := by decide
  have hd3 : (decide (str "item" = str "item")) = true := by decide
  unfold onclosetag
  rw [hPost]
  simp only [hd1, hd2, hd3, hItem, Bool.false_and, Bool.and_false, Bool.true_and,
    Bool.and_true, Option.isSome_some, Bool.false_eq_true, if_false]
  constructor
  · intro hc
    simp [hc]
  · intro hc
    simp [hc]

/-- Witness for C9: a complete item increments the counter from 0 to 1
at its close. -/
theorem onclosetag_item_counts_witness :
    (onclosetag (str "item") draftOnlyOptions completeItemState).processedCount
      = completeItemState.processedCount + 1 := by
  have h := onclosetag_item_counts completeItemState
    ({ fields := [(str "title", .str (str "T")), (str "content", .str (str "<p>body</p>")),
                  (str "date", .str []), (str "slug", .str [])],
       categories := [], tags := [], customFields := [] })
    draftOnlyOptions rfl rfl
  exact h.1 (by decide)

/-- C10: the progress percentage is 0 when the recorded total is 0 (the
division is guarded, not performed), equals the rounded ratio times 100
when the total is positive, and is never negative nor above 100 while
the processed counter does not exceed the total. -/
theorem progressPercentage_guarded (c : Conversion) :
    (c.totalPosts.getD 0 = 0 → progressPercentage c = 0)
    ∧ (0 < c.totalPosts.getD 0 →
        progressPercentage c =
          jsRound (((c.processedPosts.getD 0 : ℚ) / (c.totalPosts.getD 0 : ℚ)) * 100))
    ∧ 0 ≤ progressPercentage c
    ∧ (c.processedPosts.getD 0 ≤ c.totalPosts.getD 0 → progressPercentage c ≤ 100) := by
  unfold progressPercentage
  by_cases h0 : 0 < c.totalPosts.getD 0
  · rw [if_pos h0]
    refine ⟨fun h => absurd h (by omega), fun _ => rfl, ?_, ?_⟩
    · unfold jsRound
      have hq : (0:ℚ) ≤ ((c.processedPosts.getD 0 : ℚ) / (c.totalPosts.getD 0 : ℚ)) * 100 := by
        positivity
      calc (0:ℤ) = ⌊(0 + 1/2 : ℚ)⌋ := by norm_num
        _ ≤ ⌊((c.processedPosts.getD 0 : ℚ) / (c.totalPosts.getD 0 : ℚ)) * 100 + 1/2⌋ :=
          Int.floor_le_floor (by linarith)
    · intro hpt
      unfold jsRound
      have htpos : (0:ℚ) < (c.totalPosts.getD 0 : ℚ) := by exact_mod_cast h0
      have h1 : (c.processedPosts.getD 0 : ℚ) / (c.totalPosts.getD 0 : ℚ) ≤ 1 := by
        rw [div_le_one htpos]
        exact_mod_cast hpt
      have h2 : ((c.processedPosts.getD 0 : ℚ) / (c.totalPosts.getD 0 : ℚ)) * 100 + 1/2
          ≤ 100 + 1/2 := by linarith
      calc ⌊((c.processedPosts.getD 0 : ℚ) / (c.totalPosts.getD 0 : ℚ)) * 100 + 1/2⌋
          ≤ ⌊(100 + 1/2 : ℚ)⌋ := Int.floor_le_floor h2
        _ = 100 := by norm_num
  · rw [if_neg h0]
    exact ⟨fun _ => rfl, fun h => absurd h h0, le_refl 0, fun _ => by norm_num⟩

/-- Witness for C10: one of two posts processed reports 50 percent, and
a zero total reports 0 without dividing. -/
theorem progressPercentage_guarded_witness :
    progressPercentage { status := str "processing", processedPosts := some 1, totalPosts := some 2 } = 50
    ∧ progressPercentage { status := str "processing", processedPosts := some 3, totalPosts := some 0 } = 0 := by
  constructor
  · have h := (progressPercentage_guarded
      { status := str "processing", processedPosts := some 1, totalPosts := some 2 }).2.1
      (by decide)
    rw [h]
    norm_num [jsRound, Option.getD]
  · exact (progressPercentage_guarded _).1 rfl

end WpMd
